import Mathlib

/-!
Shallow embedding of `src/Chatbot.py` (Smart Lesson Planner, a Streamlit app).

The app keeps two pieces of session state (`st.session_state.generated_plan`,
an optional string, and `st.session_state.chat_history`, a list of role-tagged
messages) and dispatches three user actions: generating a plan from the form,
sending a chat refinement, and resetting to a new plan.  The external OpenAI
completion call is modelled by passing its outcome in as an `Except String
String` value (`.ok text` for a returned completion, `.error msg` for a raised
exception whose text is `msg`); the parameters of each issued call are recorded
in a `CallParams` value.  Python string truthiness (`if not x:` treats both
`None` and the empty string as false) is modelled by `truthy`.
-/

namespace Chatbot

/-- Message roles used in the chat history and in API calls. -/
inductive Role where
  | system
  | user
  | assistant
deriving DecidableEq, Repr

/-- One entry of `chat_history` or of an API message list.  The content is
optional because the Python code can append `None` as a message content
(the failed-refinement path). -/
structure Message where
  role : Role
  content : Option String
deriving DecidableEq, Repr

/-- Python truthiness of an optional string: `None` and `""` are falsy. -/
def truthy : Option String → Bool
  | none => false
  | some s => s != ""

/-- The session state held in `st.session_state`. -/
structure AppState where
  generated_plan : Option String
  chat_history : List Message
deriving DecidableEq, Repr

/-- The state at session start: no plan, empty history. -/
def initState : AppState := ⟨none, []⟩

/-- Parameters of one `client.chat.completions.create` call. -/
structure CallParams where
  model : String
  messages : List Message
  temperature : ℚ
  max_tokens : ℕ
deriving DecidableEq, Repr

/-- Messages shown to the user via `st.warning` / `st.error` / `st.success`. -/
inductive Display where
  | warning (msg : String)
  | error (msg : String)
  | success (msg : String)
deriving DecidableEq, Repr

/-- The fixed system message used for generation and refinement calls
(`Chatbot.py` lines 52 and 81). -/
def plannerSystemPrompt : String :=
  "You are an experienced educator with expertise in lesson planning."

/-- The fixed system message used by `get_chat_response` (line 96). -/
def chatSystemPrompt : String :=
  "You are an expert educator helping to refine and improve lesson plans. Provide specific, actionable suggestions and be ready to modify the plan based on teacher requests."

/-- The f-string template of `generate_lesson_plan_with_openai`
(`Chatbot.py` lines 20-46), with the form fields substituted in. -/
def buildGenerationPrompt (enquiry_question year_group : String)
    (num_lessons : ℕ)
    (objectives active_learning adaptive_practices : String) : String :=
  "\n    As an expert educator, create a detailed lesson plan for primary school children in "
  ++ year_group
  ++ ".\n    Design a sequence of "
  ++ toString num_lessons
  ++ " lessons to address the enquiry question: \""
  ++ enquiry_question
  ++ "\".\n    The lesson order has to be sequential, in order to build on the understanding of previous lessons.\n    \n    Key Requirements:\n    1. Use Bloom\x27s Taxonomy for learning objectives\n    2. Include active learning components\n    3. Incorporate adaptive teaching strategies\n    4. Ensure progression across lessons\n    \n    Specific Inputs:\n    - Learning Objectives: "
  ++ objectives
  ++ "\n    - Active Learning Activities: "
  ++ active_learning
  ++ "\n    - Adaptive Teaching Practices: "
  ++ adaptive_practices
  ++ "\n    \n    For each lesson, provide:\n    1. Lesson Title & Learning Objective\n    2. Key Vocabulary\n    3. Main Activities (including timings)\n    4. Differentiation Strategies\n    5. Assessment Opportunities\n    6. Resources Needed\n    7. Home Learning Extensions\n    \n    Format the output using markdown for clear structure.\n    "

/-- The f-string template of `refine_lesson_plan_with_openai`
(`Chatbot.py` lines 65-75). -/
def buildRefinementPrompt (base_plan user_comments : String) : String :=
  "\n    You are an expert educator. Refine the following lesson plan based on the user\x27s comments.\n    \n    Base Lesson Plan:\n    "
  ++ base_plan
  ++ "\n    \n    User Comments:\n    "
  ++ user_comments
  ++ "\n    \n    Provide a revised lesson plan incorporating the user\x27s feedback.\n    "

/-- `generate_lesson_plan_with_openai` (`Chatbot.py` lines 11-61).  Issues one
completion call at temperature 0.7 with `max_tokens=4000`; returns the content
on success, and on an exception shows an error and returns `None` (here: the
returned optional text, the parameters of the call that was issued, and the
displays produced). -/
def generate_lesson_plan_with_openai (enquiry_question year_group : String)
    (num_lessons : ℕ)
    (objectives active_learning adaptive_practices : String)
    (apiResult : Except String String) :
    Option String × CallParams × List Display :=
  let prompt := buildGenerationPrompt enquiry_question year_group num_lessons
      objectives active_learning adaptive_practices
  let call : CallParams :=
    ⟨"gpt-4-turbo-preview",
     [⟨Role.system, some plannerSystemPrompt⟩, ⟨Role.user, some prompt⟩],
     7/10, 4000⟩
  match apiResult with
  | Except.ok t => (some t, call, [])
  | Except.error e =>
      (none, call, [Display.error ("Error generating lesson plan: " ++ e)])

/-- `refine_lesson_plan_with_openai` (`Chatbot.py` lines 63-90).  Issues one
completion call at temperature 0.7 with `max_tokens=4000`; on an exception it
shows an error and returns `None`. -/
def refine_lesson_plan_with_openai (base_plan user_comments : String)
    (apiResult : Except String String) :
    Option String × CallParams × List Display :=
  let prompt := buildRefinementPrompt base_plan user_comments
  let call : CallParams :=
    ⟨"gpt-4-turbo-preview",
     [⟨Role.system, some plannerSystemPrompt⟩, ⟨Role.user, some prompt⟩],
     7/10, 4000⟩
  match apiResult with
  | Except.ok t => (some t, call, [])
  | Except.error e =>
      (none, call, [Display.error ("Error refining lesson plan: " ++ e)])

/-- `get_chat_response` (`Chatbot.py` lines 92-109).  Issues one completion
call at temperature 0.5 with `max_tokens=2000`; on an exception it returns the
error text as the reply.  This function is defined in the source but is never
invoked by `main`. -/
def get_chat_response (conversation_history : List Message)
    (user_input : String) (apiResult : Except String String) :
    String × CallParams :=
  let messages :=
    ⟨Role.system, some chatSystemPrompt⟩ ::
      (conversation_history ++ [⟨Role.user, some user_input⟩])
  let call : CallParams := ⟨"gpt-4-turbo-preview", messages, 1/2, 2000⟩
  match apiResult with
  | Except.ok t => (t, call)
  | Except.error e => ("Error getting response: " ++ e, call)

/-- A user interaction with the app, together with the outcome of the external
completion call it triggers (if any). -/
inductive Event where
  | generate (enquiry_question year_group objectives active_learning
      adaptive_practices : String) (num_lessons : ℕ)
      (api : Except String String)
  | send (input : String) (api : Except String String)
  | newPlan
deriving Repr

/-- The result of dispatching one event: the new session state, the parameters
of the completion calls issued, and the display messages produced. -/
structure ActionOut where
  state : AppState
  calls : List CallParams
  displays : List Display
deriving DecidableEq, Repr

/-- One dispatch of a user action by `main` (`Chatbot.py` lines 203-220 for
Generate, 246-259 for Send, 270-273 for New Plan).  The Generate button exists
only on the form view (plan falsy) and the Send / New Plan buttons only on the
chat view (plan truthy), so events arriving in the wrong phase are no-ops. -/
def applyAction (s : AppState) : Event → ActionOut
  | Event.generate enq yg obj al ap nl api =>
      if truthy s.generated_plan then ⟨s, [], []⟩
      else if !(enq != "" && obj != "" && al != "" && ap != "") then
        ⟨s, [],
         [Display.warning "⚠️ Please fill out all fields to generate a lesson plan!"]⟩
      else
        let r := generate_lesson_plan_with_openai enq yg nl obj al ap api
        match r.1 with
        | some t =>
            if t != "" then
              ⟨⟨some t, s.chat_history⟩, [r.2.1],
               r.2.2 ++ [Display.success "✅ Lesson plan generated successfully!"]⟩
            else ⟨s, [r.2.1], r.2.2⟩
        | none => ⟨s, [r.2.1], r.2.2⟩
  | Event.send input api =>
      match s.generated_plan with
      | some p =>
          if p != "" then
            if input != "" then
              let r := refine_lesson_plan_with_openai p input api
              ⟨⟨r.1,
                (s.chat_history ++ [⟨Role.user, some input⟩])
                  ++ [⟨Role.assistant, r.1⟩]⟩,
               [r.2.1], r.2.2⟩
            else ⟨s, [], []⟩
          else ⟨s, [], []⟩
      | none => ⟨s, [], []⟩
  | Event.newPlan =>
      if truthy s.generated_plan then ⟨initState, [], []⟩ else ⟨s, [], []⟩

/-- The seeding performed each time the chat view renders (`Chatbot.py` lines
230-231): if the plan is truthy and the history is empty, the plan is appended
as the first (assistant) history entry. -/
def renderSeed (s : AppState) : AppState :=
  if truthy s.generated_plan && s.chat_history.isEmpty then
    ⟨s.generated_plan, [⟨Role.assistant, s.generated_plan⟩]⟩
  else s

/-- One full interaction: dispatch the action, then re-render (Streamlit reruns
the script after every interaction, which applies the seeding). -/
def step (s : AppState) (e : Event) : AppState :=
  renderSeed (applyAction s e).state

/-- The session state displayed after a sequence of interactions starting from
a fresh session. -/
def reach (es : List Event) : AppState :=
  es.foldl step initState

/-- The seven options of the year-group selectbox (`Chatbot.py` line 181). -/
def yearGroupOptions : List String :=
  ["Reception", "Year 1", "Year 2", "Year 3", "Year 4", "Year 5", "Year 6"]

/-- `t` occurs verbatim as a substring of `s`. -/
def strContains (s t : String) : Prop :=
  ∃ l r, s = l ++ t ++ r

/-- The Send events of a sequence of successful refinement round-trips:
for each pair, the first component is the user input and the second the text
returned by the completion call. -/
def sendEvents (prs : List (String × String)) : List Event :=
  prs.map fun pr => Event.send pr.1 (Except.ok pr.2)

/-- The user/assistant message pairs appended to the history by a sequence of
successful refinement round-trips. -/
def roundTripMsgs : List (String × String) → List Message
  | [] => []
  | pr :: rest =>
      ⟨Role.user, some pr.1⟩ :: ⟨Role.assistant, some pr.2⟩ :: roundTripMsgs rest

/-- The history-head invariant maintained across interactions: whenever the
plan is truthy the history is non-empty, and a non-empty history starts with
an assistant message carrying non-empty text. -/
def HeadInv (s : AppState) : Prop :=
  (truthy s.generated_plan = true → s.chat_history ≠ []) ∧
  (s.chat_history ≠ [] →
    ∃ p, p ≠ "" ∧ s.chat_history.head? = some ⟨Role.assistant, some p⟩)

theorem renderSeed_of_ne_nil (s : AppState) (h : s.chat_history ≠ []) :
    renderSeed s = s := by
  unfold renderSeed
  simp [List.isEmpty_iff, h]

theorem gen_success_step (s : AppState) (enq yg obj al ap : String) (nl : ℕ)
    (t : String)
    (hphase : truthy s.generated_plan = false)
    (henq : enq ≠ "") (hobj : obj ≠ "") (hal : al ≠ "") (hap : ap ≠ "")
    (ht : t ≠ "") :
    applyAction s (Event.generate enq yg obj al ap nl (Except.ok t)) =
      ⟨⟨some t, s.chat_history⟩,
       [⟨"gpt-4-turbo-preview",
         [⟨Role.system, some plannerSystemPrompt⟩,
          ⟨Role.user, some (buildGenerationPrompt enq yg nl obj al ap)⟩],
         7/10, 4000⟩],
       [Display.success "✅ Lesson plan generated successfully!"]⟩ := by
  simp [applyAction, generate_lesson_plan_with_openai, hphase, henq, hobj, hal,
    hap, ht]

theorem send_ok_apply (s : AppState) (p u r : String)
    (hs : s.generated_plan = some p) (hp : p ≠ "") (hu : u ≠ "") :
    applyAction s (Event.send u (Except.ok r)) =
      ⟨⟨some r, s.chat_history ++ [⟨Role.user, some u⟩, ⟨Role.assistant, some r⟩]⟩,
       [⟨"gpt-4-turbo-preview",
         [⟨Role.system, some plannerSystemPrompt⟩,
          ⟨Role.user, some (buildRefinementPrompt p u)⟩],
         7/10, 4000⟩],
       []⟩ := by
  simp [applyAction, refine_lesson_plan_with_openai, hs, hp, hu]

theorem send_err_apply (s : AppState) (p u e : String)
    (hs : s.generated_plan = some p) (hp : p ≠ "") (hu : u ≠ "") :
    applyAction s (Event.send u (Except.error e)) =
      ⟨⟨none, s.chat_history ++ [⟨Role.user, some u⟩, ⟨Role.assistant, none⟩]⟩,
       [⟨"gpt-4-turbo-preview",
         [⟨Role.system, some plannerSystemPrompt⟩,
          ⟨Role.user, some (buildRefinementPrompt p u)⟩],
         7/10, 4000⟩],
       [Display.error ("Error refining lesson plan: " ++ e)]⟩ := by
  simp [applyAction, refine_lesson_plan_with_openai, hs, hp, hu]

theorem roundTripMsgs_length (prs : List (String × String)) :
    (roundTripMsgs prs).length = 2 * prs.length := by
  induction prs with
  | nil => rfl
  | cons pr rest ih => simp [roundTripMsgs, ih]; ring

theorem runSends (prs : List (String × String)) (p : String)
    (h : List Message)
    (hp : p ≠ "") (hh : h ≠ [])
    (hprs : ∀ pr ∈ prs, pr.1 ≠ "" ∧ pr.2 ≠ "") :
    (sendEvents prs).foldl step ⟨some p, h⟩ =
      ⟨some ((prs.map Prod.snd).getLastD p), h ++ roundTripMsgs prs⟩ := by
  induction prs generalizing p h with
  | nil => simp [sendEvents, roundTripMsgs]
  | cons pr rest ih =>
      have hpr := hprs pr (List.mem_cons_self pr rest)
      have hrest : ∀ q ∈ rest, q.1 ≠ "" ∧ q.2 ≠ "" := fun q hq =>
        hprs q (List.mem_cons_of_mem pr hq)
      have hstep : step ⟨some p, h⟩ (Event.send pr.1 (Except.ok pr.2)) =
          ⟨some pr.2, h ++ [⟨Role.user, some pr.1⟩, ⟨Role.assistant, some pr.2⟩]⟩ := by
        rw [step, send_ok_apply ⟨some p, h⟩ p pr.1 pr.2 rfl hp hpr.1]
        apply renderSeed_of_ne_nil
        simp
      rw [sendEvents, List.map_cons, List.foldl_cons, hstep]
      rw [show (List.map (fun pr => Event.send pr.1 (Except.ok pr.2)) rest) =
        sendEvents rest from rfl]
      rw [ih pr.2 _ hpr.2 (by simp) hrest]
      rw [List.map_cons, List.getLastD_cons]
      simp [roundTripMsgs]

theorem roundTripMsgs_getLast (prs : List (String × String)) (p : String) :
    (⟨Role.assistant, some p⟩ :: roundTripMsgs prs : List Message).getLast? =
      some ⟨Role.assistant, some ((prs.map Prod.snd).getLastD p)⟩ := by
  induction prs generalizing p with
  | nil => rfl
  | cons pr rest ih =>
      rw [roundTripMsgs, List.getLast?_cons_cons, List.getLast?_cons_cons, ih pr.2,
        List.map_cons, List.getLastD_cons]

theorem headInv_renderSeed (s : AppState)
    (h : s.chat_history ≠ [] →
      ∃ p, p ≠ "" ∧ s.chat_history.head? = some ⟨Role.assistant, some p⟩) :
    HeadInv (renderSeed s) := by
  unfold renderSeed
  split
  case isTrue hc =>
    rcases Bool.and_eq_true_iff.mp hc with ⟨ht, _⟩
    cases hg : s.generated_plan with
    | none => rw [hg] at ht; simp [truthy] at ht
    | some p =>
        rw [hg] at ht
        have hp : p ≠ "" := by simpa [truthy] using ht
        exact ⟨fun _ => by simp, fun _ => ⟨p, hp, by simp [hg]⟩⟩
  case isFalse hc =>
    refine ⟨fun ht => ?_, h⟩
    intro hnil
    rw [Bool.and_eq_true_iff] at hc
    push_neg at hc
    have := hc ht
    simp [hnil] at this

theorem head?_append_left {α : Type} (l l' : List α) (h : l ≠ []) :
    (l ++ l').head? = l.head? := by
  cases l with
  | nil => exact absurd rfl h
  | cons a t => rfl

theorem applyAction_state_cases (s : AppState) (e : Event) :
    (applyAction s e).state = s ∨ (applyAction s e).state = initState ∨
    (∃ t, t ≠ "" ∧ (applyAction s e).state = ⟨some t, s.chat_history⟩) ∨
    (truthy s.generated_plan = true ∧
      ∃ g l, (applyAction s e).state = ⟨g, s.chat_history ++ l⟩) := by
  cases e with
  | generate enq yg obj al ap nl api =>
      simp only [applyAction]
      split
      · left; rfl
      · split
        · left; rfl
        · split
          case h_1 t heq =>
            split
            case isTrue ht =>
              right; right; left
              exact ⟨t, by simpa using ht, rfl⟩
            case isFalse => left; rfl
          case h_2 => left; rfl
  | send input api =>
      simp only [applyAction]
      split
      case h_2 => left; rfl
      case h_1 p hp =>
        split
        case isTrue hptr =>
          split
          case isTrue hin =>
            right; right; right
            refine ⟨by rw [hp]; simpa [truthy] using hptr,
              (refine_lesson_plan_with_openai p input api).1,
              [⟨Role.user, some input⟩, ⟨Role.assistant,
                (refine_lesson_plan_with_openai p input api).1⟩], ?_⟩
            simp
          case isFalse => left; rfl
        case isFalse => left; rfl
  | newPlan =>
      simp only [applyAction]
      split
      · right; left; rfl
      · left; rfl

theorem step_headInv (s : AppState) (e : Event) (h : HeadInv s) :
    HeadInv (step s e) := by
  apply headInv_renderSeed
  rcases applyAction_state_cases s e with hc | hc | ⟨t, ht, hc⟩ | ⟨htr, g, l, hc⟩
  · rw [hc]; exact h.2
  · rw [hc]; intro hnil; simp [initState] at hnil
  · rw [hc]; intro hnil; exact h.2 hnil
  · rw [hc]; intro _
    have hnil := h.1 htr
    obtain ⟨p, hp, hhd⟩ := h.2 hnil
    refine ⟨p, hp, ?_⟩
    show (s.chat_history ++ l).head? = _
    rw [head?_append_left _ _ hnil, hhd]

theorem headInv_initState : HeadInv initState := by
  constructor
  · intro ht; simp [initState, truthy] at ht
  · intro h; exact absurd rfl h

theorem reach_headInv (es : List Event) : HeadInv (reach es) := by
  rw [reach]
  suffices h : ∀ s, HeadInv s → HeadInv (es.foldl step s) from
    h initState headInv_initState
  induction es with
  | nil => exact fun s hs => hs
  | cons e rest ih =>
      intro s hs
      exact ih (step s e) (step_headInv s e hs)

theorem strContains_append_left (s t u : String) (h : strContains s u) :
    strContains (s ++ t) u := by
  obtain ⟨l, r, hl⟩ := h
  exact ⟨l, r ++ t, by rw [hl, String.append_assoc, String.append_assoc]⟩

theorem strContains_append_self (s t : String) : strContains (s ++ t) t :=
  ⟨s, "", by rw [String.append_assoc, String.append_empty]⟩

theorem applyAction_calls_cases (s : AppState) (e : Event) :
    (applyAction s e).calls = [] ∨
    (∃ enq yg nl obj al ap api, (applyAction s e).calls =
      [(generate_lesson_plan_with_openai enq yg nl obj al ap api).2.1]) ∨
    (∃ p input api, (applyAction s e).calls =
      [(refine_lesson_plan_with_openai p input api).2.1]) := by
  cases e with
  | generate enq yg obj al ap nl api =>
      simp only [applyAction]
      split
      · left; rfl
      · split
        · left; rfl
        · split
          case h_1 t heq =>
            split
            · right; left; exact ⟨enq, yg, nl, obj, al, ap, api, rfl⟩
            · right; left; exact ⟨enq, yg, nl, obj, al, ap, api, rfl⟩
          case h_2 => right; left; exact ⟨enq, yg, nl, obj, al, ap, api, rfl⟩
  | send input api =>
      simp only [applyAction]
      split
      case h_2 => left; rfl
      case h_1 p hp =>
        split
        · split
          · right; right; exact ⟨p, input, api, rfl⟩
          · left; rfl
        · left; rfl
  | newPlan =>
      simp only [applyAction]
      split
      · left; rfl
      · left; rfl

theorem gen_call_params (enq yg : String) (nl : ℕ) (obj al ap : String)
    (api : Except String String) :
    (generate_lesson_plan_with_openai enq yg nl obj al ap api).2.1.temperature = 7/10 ∧
    (generate_lesson_plan_with_openai enq yg nl obj al ap api).2.1.max_tokens = 4000 := by
  cases api <;> exact ⟨rfl, rfl⟩

theorem refine_call_params (p input : String) (api : Except String String) :
    (refine_lesson_plan_with_openai p input api).2.1.temperature = 7/10 ∧
    (refine_lesson_plan_with_openai p input api).2.1.max_tokens = 4000 := by
  cases api <;> exact ⟨rfl, rfl⟩

/-- Claim C1, counterexample: in the Refining phase, when the refinement call
fails (here with message "boom"), the failure message is NOT appended to the
history and does NOT become the current plan; instead the appended assistant
turn has absent (`none`) content, the current plan becomes absent, and the
failure text appears only as a transient error display. -/
theorem failed_refinement_counterexample :
    (applyAction
        (reach [Event.generate "Why do leaves change color?" "Year 3" "objs"
          "acts" "adapt" 3 (Except.ok "PLAN_V1")])
        (Event.send "add more group work" (Except.error "boom"))).state.generated_plan
      = none ∧
    (applyAction
        (reach [Event.generate "Why do leaves change color?" "Year 3" "objs"
          "acts" "adapt" 3 (Except.ok "PLAN_V1")])
        (Event.send "add more group work" (Except.error "boom"))).state.generated_plan
      ≠ some "Error refining lesson plan: boom" ∧
    (applyAction
        (reach [Event.generate "Why do leaves change color?" "Year 3" "objs"
          "acts" "adapt" 3 (Except.ok "PLAN_V1")])
        (Event.send "add more group work" (Except.error "boom"))).state.chat_history.getLast?
      = some ⟨Role.assistant, none⟩ ∧
    (applyAction
        (reach [Event.generate "Why do leaves change color?" "Year 3" "objs"
          "acts" "adapt" 3 (Except.ok "PLAN_V1")])
        (Event.send "add more group work" (Except.error "boom"))).displays
      = [Display.error "Error refining lesson plan: boom"] := by
  refine ⟨by decide, by decide, by decide, by decide⟩

/-- Claim C1, amended: in the Refining phase, when the completion call made for
a refinement submission fails, an assistant turn with absent content (`None`)
is appended to the history and becomes the new current plan value (so the
current plan becomes absent); the failure message itself is only shown as an
error display, not stored in the history. -/
theorem failed_refinement_appends_none (s : AppState) (p u e : String)
    (hs : s.generated_plan = some p) (hp : p ≠ "") (hu : u ≠ "") :
    (applyAction s (Event.send u (Except.error e))).state.generated_plan = none ∧
    (applyAction s (Event.send u (Except.error e))).state.chat_history =
      s.chat_history ++ [⟨Role.user, some u⟩, ⟨Role.assistant, none⟩] ∧
    (applyAction s (Event.send u (Except.error e))).displays =
      [Display.error ("Error refining lesson plan: " ++ e)] := by
  rw [send_err_apply s p u e hs hp hu]
  exact ⟨rfl, rfl, rfl⟩

/-- Witness for the amended claim C1 at a concrete refining state. -/
theorem failed_refinement_appends_none_witness :
    (applyAction ⟨some "PLAN_V1", [⟨Role.assistant, some "PLAN_V1"⟩]⟩
        (Event.send "tweak" (Except.error "boom"))).state.generated_plan = none ∧
    (applyAction ⟨some "PLAN_V1", [⟨Role.assistant, some "PLAN_V1"⟩]⟩
        (Event.send "tweak" (Except.error "boom"))).state.chat_history =
      (⟨some "PLAN_V1", [⟨Role.assistant, some "PLAN_V1"⟩]⟩ : AppState).chat_history
        ++ [⟨Role.user, some "tweak"⟩, ⟨Role.assistant, none⟩] ∧
    (applyAction ⟨some "PLAN_V1", [⟨Role.assistant, some "PLAN_V1"⟩]⟩
        (Event.send "tweak" (Except.error "boom"))).displays =
      [Display.error ("Error refining lesson plan: " ++ "boom")] :=
  failed_refinement_appends_none ⟨some "PLAN_V1", [⟨Role.assistant, some "PLAN_V1"⟩]⟩
    "PLAN_V1" "tweak" "boom" rfl (by decide) (by decide)

/-- Claim C2: after N successful refinement round-trips following a successful
generation, the history has exactly 1 + 2N entries, namely the seeded
assistant plan followed by the N user/assistant pairs, and the current plan
equals the content of the last assistant entry. -/
theorem refinement_roundtrip_history (enq yg obj al ap p : String) (nl : ℕ)
    (prs : List (String × String))
    (henq : enq ≠ "") (hobj : obj ≠ "") (hal : al ≠ "") (hap : ap ≠ "")
    (hp : p ≠ "")
    (hprs : ∀ pr ∈ prs, pr.1 ≠ "" ∧ pr.2 ≠ "") :
    (reach (Event.generate enq yg obj al ap nl (Except.ok p) :: sendEvents prs)) =
      ⟨some ((prs.map Prod.snd).getLastD p),
       ⟨Role.assistant, some p⟩ :: roundTripMsgs prs⟩ ∧
    (reach (Event.generate enq yg obj al ap nl (Except.ok p) :: sendEvents prs)).chat_history.length
      = 1 + 2 * prs.length ∧
    (reach (Event.generate enq yg obj al ap nl (Except.ok p) :: sendEvents prs)).chat_history.getLast?
      = some ⟨Role.assistant,
          (reach (Event.generate enq yg obj al ap nl (Except.ok p) :: sendEvents prs)).generated_plan⟩ := by
  have hgen : step initState (Event.generate enq yg obj al ap nl (Except.ok p)) =
      ⟨some p, [⟨Role.assistant, some p⟩]⟩ := by
    rw [step, gen_success_step initState enq yg obj al ap nl p rfl henq hobj hal hap hp]
    simp [renderSeed, truthy, initState, hp]
  have key : reach (Event.generate enq yg obj al ap nl (Except.ok p) :: sendEvents prs) =
      ⟨some ((prs.map Prod.snd).getLastD p),
       ⟨Role.assistant, some p⟩ :: roundTripMsgs prs⟩ := by
    rw [reach, List.foldl_cons, hgen]
    rw [show (List.foldl step (⟨some p, [⟨Role.assistant, some p⟩]⟩ : AppState) (sendEvents prs))
        = (sendEvents prs).foldl step ⟨some p, [⟨Role.assistant, some p⟩]⟩ from rfl]
    rw [runSends prs p _ hp (by simp) hprs]
    rfl
  refine ⟨key, ?_, ?_⟩
  · rw [key]
    show (⟨Role.assistant, some p⟩ :: roundTripMsgs prs : List Message).length = _
    rw [List.length_cons, roundTripMsgs_length]
    omega
  · rw [key, roundTripMsgs_getLast]

/-- Witness for claim C2 with one concrete round-trip (N = 1). -/
theorem refinement_roundtrip_history_witness :
    (reach (Event.generate "q" "Year 3" "o" "a" "d" 3 (Except.ok "PLAN_V1")
        :: sendEvents [("add more group work", "PLAN_V2")])) =
      ⟨some (([("add more group work", "PLAN_V2")].map Prod.snd).getLastD "PLAN_V1"),
       ⟨Role.assistant, some "PLAN_V1"⟩ :: roundTripMsgs [("add more group work", "PLAN_V2")]⟩ ∧
    (reach (Event.generate "q" "Year 3" "o" "a" "d" 3 (Except.ok "PLAN_V1")
        :: sendEvents [("add more group work", "PLAN_V2")])).chat_history.length
      = 1 + 2 * [("add more group work", "PLAN_V2")].length ∧
    (reach (Event.generate "q" "Year 3" "o" "a" "d" 3 (Except.ok "PLAN_V1")
        :: sendEvents [("add more group work", "PLAN_V2")])).chat_history.getLast?
      = some ⟨Role.assistant,
          (reach (Event.generate "q" "Year 3" "o" "a" "d" 3 (Except.ok "PLAN_V1")
            :: sendEvents [("add more group work", "PLAN_V2")])).generated_plan⟩ :=
  refinement_roundtrip_history "q" "Year 3" "o" "a" "d" "PLAN_V1" 3
    [("add more group work", "PLAN_V2")]
    (by decide) (by decide) (by decide) (by decide) (by decide) (by decide)

/-- Claim C3: for every form submission (the year group always being one of the
seven selectbox options) in which any of the five required text fields is
empty, the Generate action produces a validation warning and issues zero
completion calls, leaving the state unchanged. -/
theorem empty_field_validation_blocks_call (s : AppState)
    (enq yg obj al ap : String) (nl : ℕ) (api : Except String String)
    (hphase : truthy s.generated_plan = false)
    (hyg : yg ∈ yearGroupOptions)
    (hempty : enq = "" ∨ yg = "" ∨ obj = "" ∨ al = "" ∨ ap = "") :
    (applyAction s (Event.generate enq yg obj al ap nl api)).calls = [] ∧
    (applyAction s (Event.generate enq yg obj al ap nl api)).displays =
      [Display.warning "⚠️ Please fill out all fields to generate a lesson plan!"] ∧
    (applyAction s (Event.generate enq yg obj al ap nl api)).state = s := by
  have hygne : yg ≠ "" := by
    intro hE
    rw [hE] at hyg
    simp [yearGroupOptions] at hyg
  have hcond : (!(enq != "" && obj != "" && al != "" && ap != "")) = true := by
    rcases hempty with rfl | h | rfl | rfl | rfl
    · simp
    · exact absurd h hygne
    · simp
    · simp
    · simp
  simp [applyAction, hphase, hcond]

/-- Witness for claim C3: an empty enquiry question triggers the warning. -/
theorem empty_field_validation_blocks_call_witness :
    (applyAction initState (Event.generate "" "Year 3" "o" "a" "d" 3
        (Except.ok "P"))).calls = [] ∧
    (applyAction initState (Event.generate "" "Year 3" "o" "a" "d" 3
        (Except.ok "P"))).displays =
      [Display.warning "⚠️ Please fill out all fields to generate a lesson plan!"] ∧
    (applyAction initState (Event.generate "" "Year 3" "o" "a" "d" 3
        (Except.ok "P"))).state = initState :=
  empty_field_validation_blocks_call initState "" "Year 3" "o" "a" "d" 3
    (Except.ok "P") (by decide) (by decide) (Or.inl rfl)

/-- Claim C4: when the completion call made during Generate fails, the session
remains in the Composing phase with the current plan absent and the state
unchanged, no validation warning is produced, and the completion failure is
surfaced as an error display; exactly one call was issued. -/
theorem generation_failure_stays_composing (s : AppState)
    (enq yg obj al ap e : String) (nl : ℕ)
    (hplan : s.generated_plan = none)
    (henq : enq ≠ "") (hobj : obj ≠ "") (hal : al ≠ "") (hap : ap ≠ "") :
    (applyAction s (Event.generate enq yg obj al ap nl (Except.error e))).state = s ∧
    (applyAction s (Event.generate enq yg obj al ap nl (Except.error e))).state.generated_plan = none ∧
    (applyAction s (Event.generate enq yg obj al ap nl (Except.error e))).displays =
      [Display.error ("Error generating lesson plan: " ++ e)] ∧
    (∀ m, Display.warning m ∉
      (applyAction s (Event.generate enq yg obj al ap nl (Except.error e))).displays) ∧
    (applyAction s (Event.generate enq yg obj al ap nl (Except.error e))).calls.length = 1 := by
  have hphase : truthy s.generated_plan = false := by rw [hplan]; rfl
  have key : applyAction s (Event.generate enq yg obj al ap nl (Except.error e)) =
      ⟨s, [(generate_lesson_plan_with_openai enq yg nl obj al ap (Except.error e)).2.1],
       [Display.error ("Error generating lesson plan: " ++ e)]⟩ := by
    simp [applyAction, generate_lesson_plan_with_openai, hphase, henq, hobj, hal, hap]
  rw [key]
  exact ⟨rfl, hplan, rfl, by intro m; simp, rfl⟩

/-- Witness for claim C4 with a concrete transport failure. -/
theorem generation_failure_stays_composing_witness :
    (applyAction initState (Event.generate "q" "Year 3" "o" "a" "d" 3
        (Except.error "timeout"))).state = initState ∧
    (applyAction initState (Event.generate "q" "Year 3" "o" "a" "d" 3
        (Except.error "timeout"))).state.generated_plan = none ∧
    (applyAction initState (Event.generate "q" "Year 3" "o" "a" "d" 3
        (Except.error "timeout"))).displays =
      [Display.error ("Error generating lesson plan: " ++ "timeout")] ∧
    (∀ m, Display.warning m ∉
      (applyAction initState (Event.generate "q" "Year 3" "o" "a" "d" 3
        (Except.error "timeout"))).displays) ∧
    (applyAction initState (Event.generate "q" "Year 3" "o" "a" "d" 3
        (Except.error "timeout"))).calls.length = 1 :=
  generation_failure_stays_composing initState "q" "Year 3" "o" "a" "d" "timeout" 3
    rfl (by decide) (by decide) (by decide) (by decide)

/-- Claim C5, counterexample: the completion call issued for a concrete user
chat submission in the Refining phase uses temperature 0.7 and max_tokens
4000 (the refinement call shape), not temperature 0.5 and the lower ceiling
2000 that the claim asserts for chat submissions. -/
theorem chat_submission_call_params_counterexample :
    ((applyAction (reach [Event.generate "q" "Year 3" "o" "a" "d" 3
        (Except.ok "PLAN_V1")])
        (Event.send "please shorten lesson two" (Except.ok "PLAN_V2"))).calls.map
      CallParams.temperature) = [7/10] ∧
    ((applyAction (reach [Event.generate "q" "Year 3" "o" "a" "d" 3
        (Except.ok "PLAN_V1")])
        (Event.send "please shorten lesson two" (Except.ok "PLAN_V2"))).calls.map
      CallParams.max_tokens) = [4000] ∧
    ((applyAction (reach [Event.generate "q" "Year 3" "o" "a" "d" 3
        (Except.ok "PLAN_V1")])
        (Event.send "please shorten lesson two" (Except.ok "PLAN_V2"))).calls.map
      CallParams.temperature) ≠ [1/2] ∧
    ((applyAction (reach [Event.generate "q" "Year 3" "o" "a" "d" 3
        (Except.ok "PLAN_V1")])
        (Event.send "please shorten lesson two" (Except.ok "PLAN_V2"))).calls.map
      CallParams.max_tokens) ≠ [2000] := by
  have hreach : reach [Event.generate "q" "Year 3" "o" "a" "d" 3
      (Except.ok "PLAN_V1")] =
      ⟨some "PLAN_V1", [⟨Role.assistant, some "PLAN_V1"⟩]⟩ := by decide
  rw [hreach,
    send_ok_apply ⟨some "PLAN_V1", [⟨Role.assistant, some "PLAN_V1"⟩]⟩ "PLAN_V1"
      "please shorten lesson two" "PLAN_V2" rfl (by decide) (by decide)]
  refine ⟨rfl, rfl, ?_, ?_⟩
  · intro h
    simp only [List.map_cons, List.map_nil, List.cons.injEq, and_true] at h
    norm_num at h
  · intro h
    simp only [List.map_cons, List.map_nil, List.cons.injEq, and_true] at h
    exact absurd h (by norm_num)

/-- Claim C5, amended: every completion call the app actually issues (for
generation or for a user chat submission, which triggers a full-document
refinement) uses temperature 0.7 and max_tokens 4000; the chat-reply helper
`get_chat_response` uses temperature 0.5 and max_tokens 2000 but is never
invoked by any user action of `main`. -/
theorem completion_call_params :
    (∀ (s : AppState) (e : Event) (c : CallParams), c ∈ (applyAction s e).calls →
      c.temperature = 7/10 ∧ c.max_tokens = 4000) ∧
    (∀ (hist : List Message) (input : String) (api : Except String String),
      (get_chat_response hist input api).2.temperature = 1/2 ∧
      (get_chat_response hist input api).2.max_tokens = 2000) := by
  constructor
  · intro s e c hc
    rcases applyAction_calls_cases s e with h | ⟨enq, yg, nl, obj, al, ap, api, h⟩
      | ⟨p, input, api, h⟩
    · rw [h] at hc; exact absurd hc (List.not_mem_nil c)
    · rw [h, List.mem_singleton] at hc
      rw [hc]
      exact gen_call_params enq yg nl obj al ap api
    · rw [h, List.mem_singleton] at hc
      rw [hc]
      exact refine_call_params p input api
  · intro hist input api
    cases api <;> exact ⟨rfl, rfl⟩

/-- Witness for the amended claim C5 on a concrete generation call. -/
theorem completion_call_params_witness :
    (generate_lesson_plan_with_openai "q" "Year 3" 3 "o" "a" "d"
        (Except.ok "P")).2.1.temperature = 7/10 ∧
    (generate_lesson_plan_with_openai "q" "Year 3" 3 "o" "a" "d"
        (Except.ok "P")).2.1.max_tokens = 4000 :=
  completion_call_params.1 initState
    (Event.generate "q" "Year 3" "o" "a" "d" 3 (Except.ok "P"))
    (generate_lesson_plan_with_openai "q" "Year 3" 3 "o" "a" "d" (Except.ok "P")).2.1
    (by show _ ∈ [(generate_lesson_plan_with_openai "q" "Year 3" 3 "o" "a" "d"
          (Except.ok "P")).2.1]
        exact List.mem_singleton_self _)

/-- Claim C6, counterexample: after a successful generation of "PLAN_V1" and a
successful refinement to "PLAN_V2", the reachable state has a non-empty
history whose first entry still carries "PLAN_V1" while the current plan is
"PLAN_V2", so the first entry does not equal the current plan. -/
theorem first_entry_vs_current_plan_counterexample :
    (reach [Event.generate "q" "Year 3" "o" "a" "d" 3 (Except.ok "PLAN_V1"),
        Event.send "add more group work" (Except.ok "PLAN_V2")]).chat_history ≠ [] ∧
    (reach [Event.generate "q" "Year 3" "o" "a" "d" 3 (Except.ok "PLAN_V1"),
        Event.send "add more group work" (Except.ok "PLAN_V2")]).chat_history.head?
      = some ⟨Role.assistant, some "PLAN_V1"⟩ ∧
    (reach [Event.generate "q" "Year 3" "o" "a" "d" 3 (Except.ok "PLAN_V1"),
        Event.send "add more group work" (Except.ok "PLAN_V2")]).generated_plan
      = some "PLAN_V2" ∧
    ¬ ((reach [Event.generate "q" "Year 3" "o" "a" "d" 3 (Except.ok "PLAN_V1"),
        Event.send "add more group work" (Except.ok "PLAN_V2")]).chat_history.head?
      = some ⟨Role.assistant,
          (reach [Event.generate "q" "Year 3" "o" "a" "d" 3 (Except.ok "PLAN_V1"),
            Event.send "add more group work" (Except.ok "PLAN_V2")]).generated_plan⟩) := by
  refine ⟨by decide, by decide, by decide, by decide⟩

/-- Claim C6, amended: in every reachable session state whose history is
non-empty, the first entry of the history is an assistant message with
non-empty text content (the plan that seeded the history); it is not updated
by later refinements and therefore need not equal the current plan. -/
theorem first_entry_assistant_invariant (es : List Event)
    (h : (reach es).chat_history ≠ []) :
    ∃ p, p ≠ "" ∧
      (reach es).chat_history.head? = some ⟨Role.assistant, some p⟩ :=
  (reach_headInv es).2 h

/-- Witness for the amended claim C6 on a concrete event sequence. -/
theorem first_entry_assistant_invariant_witness :
    ∃ p, p ≠ "" ∧
      (reach [Event.generate "q" "Year 3" "o" "a" "d" 3
        (Except.ok "PLAN_V1")]).chat_history.head?
        = some ⟨Role.assistant, some p⟩ :=
  first_entry_assistant_invariant
    [Event.generate "q" "Year 3" "o" "a" "d" 3 (Except.ok "PLAN_V1")]
    (by decide)

/-- Claim C7: after a successful generation call from the Composing phase with
an empty history, the current plan equals the text returned by the completion
client and the history contains exactly one entry, an assistant message with
that same text. -/
theorem generation_success_state (s : AppState) (enq yg obj al ap t : String)
    (nl : ℕ)
    (hphase : truthy s.generated_plan = false)
    (hhist : s.chat_history = [])
    (henq : enq ≠ "") (hobj : obj ≠ "") (hal : al ≠ "") (hap : ap ≠ "")
    (ht : t ≠ "") :
    step s (Event.generate enq yg obj al ap nl (Except.ok t)) =
      ⟨some t, [⟨Role.assistant, some t⟩]⟩ := by
  rw [step, gen_success_step s enq yg obj al ap nl t hphase henq hobj hal hap ht]
  simp [renderSeed, truthy, hhist, ht]

/-- Witness for claim C7 from the initial state. -/
theorem generation_success_state_witness :
    step initState (Event.generate "Why do leaves change color?" "Year 3"
        "objs" "acts" "adapt" 3 (Except.ok "PLAN_V1")) =
      ⟨some "PLAN_V1", [⟨Role.assistant, some "PLAN_V1"⟩]⟩ :=
  generation_success_state initState "Why do leaves change color?" "Year 3"
    "objs" "acts" "adapt" "PLAN_V1" 3 rfl rfl
    (by decide) (by decide) (by decide) (by decide) (by decide)

/-- Claim C8: from every prior session state in the Refining phase (where the
New Plan action exists), regardless of history depth, the New Plan action
resets the current plan to absent and the history to empty, issuing no call
and no display. -/
theorem new_plan_resets_state (s : AppState)
    (htr : truthy s.generated_plan = true) :
    step s Event.newPlan = initState ∧
    (applyAction s Event.newPlan).calls = [] ∧
    (applyAction s Event.newPlan).displays = [] := by
  have key : applyAction s Event.newPlan = ⟨initState, [], []⟩ := by
    simp [applyAction, htr]
  rw [step, key]
  exact ⟨by simp [renderSeed, initState, truthy], rfl, rfl⟩

/-- Witness for claim C8 on a three-turn refining state. -/
theorem new_plan_resets_state_witness :
    step (⟨some "PLAN_V9",
        [⟨Role.assistant, some "PLAN_V1"⟩, ⟨Role.user, some "hi"⟩,
         ⟨Role.assistant, some "PLAN_V9"⟩]⟩ : AppState) Event.newPlan = initState ∧
    (applyAction (⟨some "PLAN_V9",
        [⟨Role.assistant, some "PLAN_V1"⟩, ⟨Role.user, some "hi"⟩,
         ⟨Role.assistant, some "PLAN_V9"⟩]⟩ : AppState) Event.newPlan).calls = [] ∧
    (applyAction (⟨some "PLAN_V9",
        [⟨Role.assistant, some "PLAN_V1"⟩, ⟨Role.user, some "hi"⟩,
         ⟨Role.assistant, some "PLAN_V9"⟩]⟩ : AppState) Event.newPlan).displays = [] :=
  new_plan_resets_state ⟨some "PLAN_V9",
    [⟨Role.assistant, some "PLAN_V1"⟩, ⟨Role.user, some "hi"⟩,
     ⟨Role.assistant, some "PLAN_V9"⟩]⟩ (by decide)

/-- Claim C9: for every request, including field values with markdown or
special characters, the generation prompt contains the literal enquiry
question, year group, and rendered lesson count verbatim as substrings. -/
theorem generation_prompt_contains_fields (enq yg : String) (nl : ℕ)
    (obj al ap : String) :
    strContains (buildGenerationPrompt enq yg nl obj al ap) enq ∧
    strContains (buildGenerationPrompt enq yg nl obj al ap) yg ∧
    strContains (buildGenerationPrompt enq yg nl obj al ap) (toString nl) := by
  unfold buildGenerationPrompt
  refine ⟨?_, ?_, ?_⟩
  · iterate 7 apply strContains_append_left
    exact strContains_append_self _ _
  · iterate 11 apply strContains_append_left
    exact strContains_append_self _ _
  · iterate 9 apply strContains_append_left
    exact strContains_append_self _ _

/-- Claim C10: in the Refining phase, pressing Send with an empty chat input
leaves the state unchanged and issues no call and no display. -/
theorem empty_chat_input_noop (s : AppState) (p : String)
    (api : Except String String)
    (hs : s.generated_plan = some p) (hp : p ≠ "") :
    applyAction s (Event.send "" api) = ⟨s, [], []⟩ := by
  simp [applyAction, hs, hp]

/-- Witness for claim C10 on a concrete refining state. -/
theorem empty_chat_input_noop_witness :
    applyAction ⟨some "PLAN_V1", [⟨Role.assistant, some "PLAN_V1"⟩]⟩
        (Event.send "" (Except.ok "PLAN_V2")) =
      ⟨⟨some "PLAN_V1", [⟨Role.assistant, some "PLAN_V1"⟩]⟩, [], []⟩ :=
  empty_chat_input_noop ⟨some "PLAN_V1", [⟨Role.assistant, some "PLAN_V1"⟩]⟩
    "PLAN_V1" (Except.ok "PLAN_V2") rfl (by decide)

end Chatbot
